import Mathlib

/-!
Verification of the carenote backend pricing / subscription / tenancy core.

The definitions below are a shallow embedding of the JavaScript source:
* `src/config/pricing.js` — pricing table, `calculatePrice`, `getTierLabel`,
  `getMaxLicensesForTier`;
* `src/models/Subscription.js` — the subscription record, `hasAccess`,
  `cancel`, `reactivate`;
* `src/controllers/clinicController.js` — `inviteUser`;
* `src/controllers/authController.js` — `register`, `updateProfile`;
* `src/middleware/auth.js` — `requireActiveSubscription`.

JavaScript numbers are modelled as `Int` (all quantities involved are exact
integers), dates as `Int` milliseconds since the epoch, `null`/`undefined`
as `Option`, and the document store as explicit lists threaded through the
handlers.  Random values (ids, tokens, throwaway passwords) and the success
or failure of the external e-mail dispatcher are parameters of the handler
functions.
-/

namespace CareNote

/-- A pricing tier from `pricingConfig` (`minLicenses`, `pricePerLicense`,
`label`).  The `yearlyPrice`/`savings` display fields are not used by any of
the functions under verification and are omitted. -/
structure Tier where
  minLicenses : Nat
  pricePerLicense : Nat
  label : String
deriving Repr, DecidableEq

/-- `pricingConfig.monthly.tiers`. -/
def monthlyTiers : List Tier :=
  [⟨1, 559, "1+ licenser"⟩,
   ⟨3, 528, "3+ licenser"⟩,
   ⟨5, 503, "5+ licenser"⟩,
   ⟨10, 471, "10+ licenser"⟩]

/-- `pricingConfig.yearly.tiers`. -/
def yearlyTiers : List Tier :=
  [⟨1, 475, "1+ licenser"⟩,
   ⟨3, 448, "3+ licenser"⟩,
   ⟨5, 428, "5+ licenser"⟩,
   ⟨10, 400, "10+ licenser"⟩]

/-- The keys of `pricingConfig` on which the property lookup
`pricingConfig[interval]` yields a truthy value that is not one of the two
interval sub-objects: the own keys holding truthy configuration values
(`vatIncluded` is `false` and hence falsy) plus the properties every JS
object inherits from `Object.prototype` (functions and one object, hence all
truthy).  On these keys `calculatePrice` passes the
`if (!intervalConfig) return null` guard and then throws a TypeError at
`intervalConfig.tiers.slice()`. -/
def truthyNonTierKeys : List String :=
  ["currency", "vatRate", "trialDays", "features", "yearlyFeatures",
   "constructor", "hasOwnProperty", "isPrototypeOf", "propertyIsEnumerable",
   "toLocaleString", "toString", "valueOf", "__defineGetter__",
   "__defineSetter__", "__lookupGetter__", "__lookupSetter__", "__proto__"]

/-- Shape of the value produced by the property lookup
`pricingConfig[interval]`, as far as `calculatePrice` inspects it. -/
inductive ConfigValue where
  | intervalConfig (tiers : List Tier)
  | truthyOther
  | falsy
deriving Repr, DecidableEq

/-- The property lookup `pricingConfig[interval]`: the monthly/yearly
sub-objects carry tier lists, the remaining truthy keys (own or inherited)
carry values without a usable `tiers` array, and every other string yields
`undefined` (or the falsy `vatIncluded`). -/
def pricingConfigLookup (interval : String) : ConfigValue :=
  if interval = "monthly" then .intervalConfig monthlyTiers
  else if interval = "yearly" then .intervalConfig yearlyTiers
  else if truthyNonTierKeys.contains interval then .truthyOther
  else .falsy

/-- Outcome of a JS function call that may throw: a propagating exception
(here always a TypeError) or a returned value. -/
inductive JsResult (α : Type) where
  | thrown
  | ret (value : α)
deriving Repr, DecidableEq

/-- Return value of `calculatePrice`. -/
structure PriceResult where
  tier : Tier
  numLicenses : Int
  pricePerLicense : Nat
  totalPrice : Int
  interval : String
deriving Repr, DecidableEq

/-- `calculatePrice(numLicenses, interval)` from `src/config/pricing.js`:
return null when the config lookup is falsy, throw a TypeError when it is
truthy but carries no `tiers` array, and otherwise scan the tier list from
the highest minimum downward and take the first tier whose minimum is ≤
`numLicenses`; total price is per-license price times the license count,
additionally times 12 for the yearly interval. -/
def calculatePrice (numLicenses : Int) (interval : String) :
    JsResult (Option PriceResult) :=
  match pricingConfigLookup interval with
  | .falsy => .ret none
  | .truthyOther => .thrown
  | .intervalConfig tiers =>
    match tiers.reverse.find? (fun tier => decide ((tier.minLicenses : Int) ≤ numLicenses)) with
    | none => .ret none
    | some applicableTier =>
      let pricePerLicense := applicableTier.pricePerLicense
      let totalPrice : Int :=
        if interval = "yearly" then (pricePerLicense : Int) * numLicenses * 12
        else (pricePerLicense : Int) * numLicenses
      .ret (some ⟨applicableTier, numLicenses, pricePerLicense, totalPrice, interval⟩)

/-- `getTierLabel(minLicenses)` from `src/config/pricing.js`. -/
def getTierLabel (minLicenses : Nat) : String :=
  if minLicenses ≥ 10 then "10+"
  else if minLicenses ≥ 5 then "5+"
  else if minLicenses ≥ 3 then "3+"
  else "1+"

/-- `getMaxLicensesForTier(tierMinLicenses, actualCount)` from
`src/config/pricing.js`. -/
def getMaxLicensesForTier (tierMinLicenses : Nat) (actualCount : Int) : Int :=
  if tierMinLicenses ≥ 10 then actualCount
  else if tierMinLicenses ≥ 5 then 9
  else if tierMinLicenses ≥ 3 then 4
  else 2

/-- Closed form of the tier scan for the monthly tier list. -/
theorem monthlyTiers_find (n : Int) :
    monthlyTiers.reverse.find? (fun tier => decide ((tier.minLicenses : Int) ≤ n)) =
      (if (10 : Int) ≤ n then some ⟨10, 471, "10+ licenser"⟩
       else if (5 : Int) ≤ n then some ⟨5, 503, "5+ licenser"⟩
       else if (3 : Int) ≤ n then some ⟨3, 528, "3+ licenser"⟩
       else if (1 : Int) ≤ n then some ⟨1, 559, "1+ licenser"⟩
       else none) := by
  have hrev : monthlyTiers.reverse =
      [⟨10, 471, "10+ licenser"⟩, ⟨5, 503, "5+ licenser"⟩,
       ⟨3, 528, "3+ licenser"⟩, ⟨1, 559, "1+ licenser"⟩] := by rfl
  rw [hrev]
  by_cases h10 : (10 : Int) ≤ n
  · simp [List.find?, h10]
  · by_cases h5 : (5 : Int) ≤ n
    · simp [List.find?, h10, h5]
    · by_cases h3 : (3 : Int) ≤ n
      · simp [List.find?, h10, h5, h3]
      · by_cases h1 : (1 : Int) ≤ n
        · simp [List.find?, h10, h5, h3, h1]
        · simp [List.find?, h10, h5, h3, h1]

/-- Closed form of the tier scan for the yearly tier list. -/
theorem yearlyTiers_find (n : Int) :
    yearlyTiers.reverse.find? (fun tier => decide ((tier.minLicenses : Int) ≤ n)) =
      (if (10 : Int) ≤ n then some ⟨10, 400, "10+ licenser"⟩
       else if (5 : Int) ≤ n then some ⟨5, 428, "5+ licenser"⟩
       else if (3 : Int) ≤ n then some ⟨3, 448, "3+ licenser"⟩
       else if (1 : Int) ≤ n then some ⟨1, 475, "1+ licenser"⟩
       else none) := by
  have hrev : yearlyTiers.reverse =
      [⟨10, 400, "10+ licenser"⟩, ⟨5, 428, "5+ licenser"⟩,
       ⟨3, 448, "3+ licenser"⟩, ⟨1, 475, "1+ licenser"⟩] := by rfl
  rw [hrev]
  by_cases h10 : (10 : Int) ≤ n
  · simp [List.find?, h10]
  · by_cases h5 : (5 : Int) ≤ n
    · simp [List.find?, h10, h5]
    · by_cases h3 : (3 : Int) ≤ n
      · simp [List.find?, h10, h5, h3]
      · by_cases h1 : (1 : Int) ≤ n
        · simp [List.find?, h10, h5, h3, h1]
        · simp [List.find?, h10, h5, h3, h1]

/-- Closed form of `calculatePrice` for the monthly interval. -/
theorem calculatePrice_monthly (n : Int) :
    calculatePrice n "monthly" =
      (if (10 : Int) ≤ n then
        .ret (some ⟨⟨10, 471, "10+ licenser"⟩, n, 471, 471 * n, "monthly"⟩)
       else if (5 : Int) ≤ n then
        .ret (some ⟨⟨5, 503, "5+ licenser"⟩, n, 503, 503 * n, "monthly"⟩)
       else if (3 : Int) ≤ n then
        .ret (some ⟨⟨3, 528, "3+ licenser"⟩, n, 528, 528 * n, "monthly"⟩)
       else if (1 : Int) ≤ n then
        .ret (some ⟨⟨1, 559, "1+ licenser"⟩, n, 559, 559 * n, "monthly"⟩)
       else .ret none) := by
  have h : pricingConfigLookup "monthly" = .intervalConfig monthlyTiers := by
    simp [pricingConfigLookup]
  simp only [calculatePrice, h]
  rw [monthlyTiers_find]
  split_ifs <;> simp_all

/-- Closed form of `calculatePrice` for the yearly interval. -/
theorem calculatePrice_yearly (n : Int) :
    calculatePrice n "yearly" =
      (if (10 : Int) ≤ n then
        .ret (some ⟨⟨10, 400, "10+ licenser"⟩, n, 400, 400 * n * 12, "yearly"⟩)
       else if (5 : Int) ≤ n then
        .ret (some ⟨⟨5, 428, "5+ licenser"⟩, n, 428, 428 * n * 12, "yearly"⟩)
       else if (3 : Int) ≤ n then
        .ret (some ⟨⟨3, 448, "3+ licenser"⟩, n, 448, 448 * n * 12, "yearly"⟩)
       else if (1 : Int) ≤ n then
        .ret (some ⟨⟨1, 475, "1+ licenser"⟩, n, 475, 475 * n * 12, "yearly"⟩)
       else .ret none) := by
  have h : pricingConfigLookup "yearly" = .intervalConfig yearlyTiers := by
    simp [pricingConfigLookup]
  simp only [calculatePrice, h]
  rw [yearlyTiers_find]
  split_ifs <;> simp_all

/-- `calculatePrice` throws a TypeError on the truthy non-interval keys of
the config object. -/
theorem calculatePrice_thrown (n : Int) (interval : String)
    (hm : interval ≠ "monthly") (hy : interval ≠ "yearly")
    (hk : truthyNonTierKeys.contains interval = true) :
    calculatePrice n interval = .thrown := by
  have hmem : interval ∈ truthyNonTierKeys := by simpa using hk
  have h : pricingConfigLookup interval = .truthyOther := by
    simp [pricingConfigLookup, hm, hy, hmem]
  simp [calculatePrice, h]

/-- `calculatePrice` returns null on every other unrecognized string. -/
theorem calculatePrice_falsy (n : Int) (interval : String)
    (hm : interval ≠ "monthly") (hy : interval ≠ "yearly")
    (hk : truthyNonTierKeys.contains interval = false) :
    calculatePrice n interval = .ret none := by
  have hmem : interval ∉ truthyNonTierKeys := by simpa using hk
  have h : pricingConfigLookup interval = .falsy := by
    simp [pricingConfigLookup, hm, hy, hmem]
  simp [calculatePrice, h]

/-- Counterexample to C3 as stated: for the unrecognized interval string
"currency" the config lookup is truthy (the string "DKK"), so
`calculatePrice` throws a TypeError instead of returning null. -/
theorem C3_counterexample :
    calculatePrice 3 "currency" = .thrown ∧
    calculatePrice 3 "currency" ≠ .ret none :=
  ⟨by rfl, by decide⟩

/-- C3 (amended): `calculatePrice` returns null exactly when the interval is
recognized (monthly/yearly) and `n < 1`, or the interval string hits a falsy
config entry; on the truthy non-interval config keys (own keys such as
"currency", "vatRate", "trialDays", "features", "yearlyFeatures", and
properties inherited from `Object.prototype` such as "toString") it throws a
TypeError instead of returning; otherwise it selects the highest tier whose
minimum license count is ≤ `n` and returns per-license price × `n` for
monthly and × `n` × 12 for yearly; in particular `calculatePrice 5 "yearly"`
resolves tier "5+" with per-license price 428 and total price 25680. -/
theorem C3_calculatePrice_spec :
    (∀ (n : Int) (interval : String),
        calculatePrice n interval = .ret none ↔
          (((interval = "monthly" ∨ interval = "yearly") ∧ n < 1) ∨
            (interval ≠ "monthly" ∧ interval ≠ "yearly" ∧
              truthyNonTierKeys.contains interval = false))) ∧
    (∀ (n : Int) (interval : String),
        calculatePrice n interval = .thrown ↔
          (interval ≠ "monthly" ∧ interval ≠ "yearly" ∧
            truthyNonTierKeys.contains interval = true)) ∧
    (∀ (n : Int) (interval : String) (r : PriceResult),
        calculatePrice n interval = .ret (some r) →
          ∃ tiers, pricingConfigLookup interval = .intervalConfig tiers ∧
            r.numLicenses = n ∧ r.interval = interval ∧
            r.pricePerLicense = r.tier.pricePerLicense ∧
            r.tier ∈ tiers ∧
            (r.tier.minLicenses : Int) ≤ n ∧
            (∀ t ∈ tiers, (t.minLicenses : Int) ≤ n →
              t.minLicenses ≤ r.tier.minLicenses) ∧
            r.totalPrice =
              (if interval = "yearly" then (r.pricePerLicense : Int) * n * 12
               else (r.pricePerLicense : Int) * n)) ∧
    calculatePrice 5 "yearly" =
      .ret (some ⟨⟨5, 428, "5+ licenser"⟩, 5, 428, 25680, "yearly"⟩) := by
  refine ⟨?_, ?_, ?_, by rfl⟩
  · intro n interval
    by_cases hm : interval = "monthly"
    · subst hm
      rw [calculatePrice_monthly]
      split_ifs <;> simp <;> omega
    · by_cases hy : interval = "yearly"
      · subst hy
        rw [calculatePrice_yearly]
        split_ifs <;> simp <;> omega
      · cases hk : truthyNonTierKeys.contains interval with
        | true =>
          rw [calculatePrice_thrown n interval hm hy hk]
          simp [hm, hy, hk]
        | false =>
          rw [calculatePrice_falsy n interval hm hy hk]
          simp [hm, hy, hk]
  · intro n interval
    by_cases hm : interval = "monthly"
    · subst hm
      rw [calculatePrice_monthly]
      split_ifs <;> simp
    · by_cases hy : interval = "yearly"
      · subst hy
        rw [calculatePrice_yearly]
        split_ifs <;> simp
      · cases hk : truthyNonTierKeys.contains interval with
        | true =>
          rw [calculatePrice_thrown n interval hm hy hk]
          simp [hm, hy, hk]
        | false =>
          rw [calculatePrice_falsy n interval hm hy hk]
          simp [hm, hy, hk]
  · intro n interval r h
    by_cases hm : interval = "monthly"
    · subst hm
      rw [calculatePrice_monthly] at h
      split_ifs at h with h10 h5 h3 h1
      · injection h with h; injection h with h; subst h
        refine ⟨monthlyTiers, by simp [pricingConfigLookup], rfl, rfl, rfl, by simp [monthlyTiers],
          by assumption, ?_, by simp⟩
        intro t ht hle
        simp [monthlyTiers] at ht
        rcases ht with rfl | rfl | rfl | rfl <;> simp_all <;> omega
      · injection h with h; injection h with h; subst h
        refine ⟨monthlyTiers, by simp [pricingConfigLookup], rfl, rfl, rfl, by simp [monthlyTiers],
          by assumption, ?_, by simp⟩
        intro t ht hle
        simp [monthlyTiers] at ht
        rcases ht with rfl | rfl | rfl | rfl <;> simp_all <;> omega
      · injection h with h; injection h with h; subst h
        refine ⟨monthlyTiers, by simp [pricingConfigLookup], rfl, rfl, rfl, by simp [monthlyTiers],
          by assumption, ?_, by simp⟩
        intro t ht hle
        simp [monthlyTiers] at ht
        rcases ht with rfl | rfl | rfl | rfl <;> simp_all <;> omega
      · injection h with h; injection h with h; subst h
        refine ⟨monthlyTiers, by simp [pricingConfigLookup], rfl, rfl, rfl, by simp [monthlyTiers],
          by assumption, ?_, by simp⟩
        intro t ht hle
        simp [monthlyTiers] at ht
        rcases ht with rfl | rfl | rfl | rfl <;> simp_all <;> omega
      · simp at h
    · by_cases hy : interval = "yearly"
      · subst hy
        rw [calculatePrice_yearly] at h
        split_ifs at h with h10 h5 h3 h1
        · injection h with h; injection h with h; subst h
          refine ⟨yearlyTiers, by simp [pricingConfigLookup], rfl, rfl, rfl, by simp [yearlyTiers],
            by assumption, ?_, by simp⟩
          intro t ht hle
          simp [yearlyTiers] at ht
          rcases ht with rfl | rfl | rfl | rfl <;> simp_all <;> omega
        · injection h with h; injection h with h; subst h
          refine ⟨yearlyTiers, by simp [pricingConfigLookup], rfl, rfl, rfl, by simp [yearlyTiers],
            by assumption, ?_, by simp⟩
          intro t ht hle
          simp [yearlyTiers] at ht
          rcases ht with rfl | rfl | rfl | rfl <;> simp_all <;> omega
        · injection h with h; injection h with h; subst h
          refine ⟨yearlyTiers, by simp [pricingConfigLookup], rfl, rfl, rfl, by simp [yearlyTiers],
            by assumption, ?_, by simp⟩
          intro t ht hle
          simp [yearlyTiers] at ht
          rcases ht with rfl | rfl | rfl | rfl <;> simp_all <;> omega
        · injection h with h; injection h with h; subst h
          refine ⟨yearlyTiers, by simp [pricingConfigLookup], rfl, rfl, rfl, by simp [yearlyTiers],
            by assumption, ?_, by simp⟩
          intro t ht hle
          simp [yearlyTiers] at ht
          rcases ht with rfl | rfl | rfl | rfl <;> simp_all <;> omega
        · simp at h
      · cases hk : truthyNonTierKeys.contains interval with
        | true =>
          rw [calculatePrice_thrown n interval hm hy hk] at h
          simp at h
        | false =>
          rw [calculatePrice_falsy n interval hm hy hk] at h
          simp at h

/-- Witness for the amended C3 at concrete inputs. -/
theorem C3_calculatePrice_spec_witness :
    calculatePrice (-1) "monthly" = .ret none ∧
    calculatePrice 3 "weekly" = .ret none ∧
    calculatePrice 3 "trialDays" = .thrown ∧
    ((⟨⟨3, 528, "3+ licenser"⟩, 3, 528, 1584, "monthly"⟩ : PriceResult).numLicenses
      = 3) :=
  ⟨(C3_calculatePrice_spec.1 (-1) "monthly").mpr (Or.inl ⟨Or.inl rfl, by decide⟩),
   (C3_calculatePrice_spec.1 3 "weekly").mpr
     (Or.inr ⟨by decide, by decide, by decide⟩),
   (C3_calculatePrice_spec.2.1 3 "trialDays").mpr ⟨by decide, by decide, by decide⟩,
   (C3_calculatePrice_spec.2.2.1 3 "monthly"
      ⟨⟨3, 528, "3+ licenser"⟩, 3, 528, 1584, "monthly"⟩ (by rfl)).elim
     (fun tiers hspec => hspec.2.1)⟩

/-- C4: `getMaxLicensesForTier` returns 2, 4, 9 for tier minima 1, 3, 5 and the
actual member count verbatim from tier minimum 10 on; and for every member
count ≥ 1, the count is ≤ the capacity of the tier `calculatePrice` resolves
for it. -/
theorem C4_capacity_spec :
    (∀ a : Int, getMaxLicensesForTier 1 a = 2 ∧ getMaxLicensesForTier 3 a = 4 ∧
        getMaxLicensesForTier 5 a = 9) ∧
    (∀ (m : Nat) (a : Int), 10 ≤ m → getMaxLicensesForTier m a = a) ∧
    (∀ (n : Nat) (interval : String) (r : PriceResult), 1 ≤ n →
        calculatePrice (n : Int) interval = .ret (some r) →
        (n : Int) ≤ getMaxLicensesForTier r.tier.minLicenses (n : Int)) := by
  refine ⟨?_, ?_, ?_⟩
  · intro a
    refine ⟨?_, ?_, ?_⟩ <;> simp [getMaxLicensesForTier]
  · intro m a hm
    simp [getMaxLicensesForTier, hm]
  · intro n interval r hn h
    by_cases hm : interval = "monthly"
    · subst hm
      rw [calculatePrice_monthly] at h
      split_ifs at h with h10 h5 h3 h1
      · injection h with h; injection h with h; subst h
        simp only [getMaxLicensesForTier]
        split_ifs <;> simp_all <;> omega
      · injection h with h; injection h with h; subst h
        simp only [getMaxLicensesForTier]
        split_ifs <;> simp_all <;> omega
      · injection h with h; injection h with h; subst h
        simp only [getMaxLicensesForTier]
        split_ifs <;> simp_all <;> omega
      · injection h with h; injection h with h; subst h
        simp only [getMaxLicensesForTier]
        split_ifs <;> simp_all <;> omega
      · simp at h
    · by_cases hy : interval = "yearly"
      · subst hy
        rw [calculatePrice_yearly] at h
        split_ifs at h with h10 h5 h3 h1
        · injection h with h; injection h with h; subst h
          simp only [getMaxLicensesForTier]
          split_ifs <;> simp_all <;> omega
        · injection h with h; injection h with h; subst h
          simp only [getMaxLicensesForTier]
          split_ifs <;> simp_all <;> omega
        · injection h with h; injection h with h; subst h
          simp only [getMaxLicensesForTier]
          split_ifs <;> simp_all <;> omega
        · injection h with h; injection h with h; subst h
          simp only [getMaxLicensesForTier]
          split_ifs <;> simp_all <;> omega
        · simp at h
      · cases hk : truthyNonTierKeys.contains interval with
        | true =>
          rw [calculatePrice_thrown _ interval hm hy hk] at h
          simp at h
        | false =>
          rw [calculatePrice_falsy _ interval hm hy hk] at h
          simp at h

/-- Witness for C4 at concrete inputs. -/
theorem C4_capacity_spec_witness :
    getMaxLicensesForTier 12 7 = 7 ∧
    ((7 : Nat) : Int) ≤ getMaxLicensesForTier 5 ((7 : Nat) : Int) :=
  ⟨C4_capacity_spec.2.1 12 7 (by decide),
   C4_capacity_spec.2.2 7 "monthly"
     ⟨⟨5, 503, "5+ licenser"⟩, 7, 503, 3521, "monthly"⟩ (by decide) (by rfl)⟩

/-- Status values allowed by the `subscriptionSchema.status` enum in
`src/models/Subscription.js`. -/
def subscriptionStatusEnum : List String :=
  ["active", "inactive", "expired", "cancelled"]

/-- A Subscription document.  Fields mirror `subscriptionSchema` in
`src/models/Subscription.js` (with `metadata` omitted); `numLicenses`,
`pricePerLicense` and `pricing_tier` are the license fields the controllers
read and write on the document. -/
structure Subscription where
  id : Nat
  user_id : Nat
  plan_name : Option String
  status : String
  current_period_start : Int
  current_period_end : Option Int
  is_trial : Bool
  billing_amount : Int
  billing_currency : String
  billing_interval : String
  cancelled_at : Option Int
  cancelled_by : Option Nat
  last_payment_date : Option Int
  next_payment_date : Option Int
  notes : String
  numLicenses : Int
  pricePerLicense : Nat
  pricing_tier : String
deriving Repr, DecidableEq

/-- The `activeStatuses` list inside `hasAccess`. -/
def activeStatuses : List String := ["active", "trialing"]

/-- `subscriptionSchema.methods.hasAccess` from `src/models/Subscription.js`:
status must be in `activeStatuses`, and if `current_period_end` is set the
current time must not be past it. -/
def Subscription.hasAccess (s : Subscription) (now : Int) : Bool :=
  if !(activeStatuses.contains s.status) then false
  else if (match s.current_period_end with
           | some endDate => decide (endDate < now)
           | none => false) then false
  else true

/-- `subscriptionSchema.methods.cancel` from `src/models/Subscription.js`. -/
def Subscription.cancel (s : Subscription) (now : Int) (cancelledBy : Option Nat) :
    Subscription :=
  { s with status := "cancelled", cancelled_at := some now, cancelled_by := cancelledBy }

/-- `subscriptionSchema.methods.reactivate` from `src/models/Subscription.js`. -/
def Subscription.reactivate (s : Subscription) : Subscription :=
  { s with status := "active", cancelled_at := none, cancelled_by := none }

/-- `hasAccess` characterized as a proposition. -/
theorem hasAccess_iff (s : Subscription) (now : Int) :
    s.hasAccess now = true ↔
      ((s.status = "active" ∨ s.status = "trialing") ∧
       (s.current_period_end = none ∨
         ∃ endDate, s.current_period_end = some endDate ∧ now ≤ endDate)) := by
  cases hce : s.current_period_end with
  | none => simp [Subscription.hasAccess, activeStatuses, hce]
  | some endDate =>
    by_cases hlt : endDate < now
    · simp [Subscription.hasAccess, activeStatuses, hce, hlt]
    · simp [Subscription.hasAccess, activeStatuses, hce, hlt]
      intro h
      omega

/-- C5: `hasAccess` returns true iff the status is `active` or `trialing` and
the period end is null or not in the past; in particular an active
subscription whose `current_period_end` is one second before `now` is denied
and one whose period end is one second after `now` is allowed. -/
theorem C5_hasAccess_spec :
    (∀ (s : Subscription) (now : Int),
        s.hasAccess now = true ↔
          ((s.status = "active" ∨ s.status = "trialing") ∧
           (s.current_period_end = none ∨
             ∃ endDate, s.current_period_end = some endDate ∧ now ≤ endDate))) ∧
    (∀ (s : Subscription) (now : Int), s.status = "active" →
        (s.current_period_end = some (now - 1000) → s.hasAccess now = false) ∧
        (s.current_period_end = some (now + 1000) → s.hasAccess now = true)) := by
  refine ⟨hasAccess_iff, ?_⟩
  intro s now hst
  constructor
  · intro hce
    simp [Subscription.hasAccess, activeStatuses, hst, hce]
  · intro hce
    simp [Subscription.hasAccess, activeStatuses, hst, hce]

/-- Witness for the C5 boundary part on a concrete subscription. -/
theorem C5_hasAccess_spec_witness :
    ({ id := 1, user_id := 1, plan_name := none, status := "active",
       current_period_start := 0, current_period_end := some (5000 - 1000),
       is_trial := true, billing_amount := 559, billing_currency := "DKK",
       billing_interval := "monthly", cancelled_at := none, cancelled_by := none,
       last_payment_date := none, next_payment_date := none, notes := "",
       numLicenses := 2, pricePerLicense := 559,
       pricing_tier := "1+" } : Subscription).hasAccess 5000 = false ∧
    ({ id := 1, user_id := 1, plan_name := none, status := "active",
       current_period_start := 0, current_period_end := some (5000 + 1000),
       is_trial := true, billing_amount := 559, billing_currency := "DKK",
       billing_interval := "monthly", cancelled_at := none, cancelled_by := none,
       last_payment_date := none, next_payment_date := none, notes := "",
       numLicenses := 2, pricePerLicense := 559,
       pricing_tier := "1+" } : Subscription).hasAccess 5000 = true :=
  ⟨(C5_hasAccess_spec.2 _ 5000 rfl).1 rfl, (C5_hasAccess_spec.2 _ 5000 rfl).2 rfl⟩

/-- C6: `reactivate` sets the status to active and clears the cancellation
fields, leaving every other field (in particular `current_period_end`)
unchanged; hence cancelling and then reactivating a subscription whose period
end lies in the past still yields `hasAccess = false`. -/
theorem C6_reactivate_spec :
    (∀ s : Subscription,
        s.reactivate.status = "active" ∧
        s.reactivate.cancelled_at = none ∧
        s.reactivate.cancelled_by = none ∧
        s.reactivate.id = s.id ∧
        s.reactivate.user_id = s.user_id ∧
        s.reactivate.plan_name = s.plan_name ∧
        s.reactivate.current_period_start = s.current_period_start ∧
        s.reactivate.current_period_end = s.current_period_end ∧
        s.reactivate.is_trial = s.is_trial ∧
        s.reactivate.billing_amount = s.billing_amount ∧
        s.reactivate.billing_currency = s.billing_currency ∧
        s.reactivate.billing_interval = s.billing_interval ∧
        s.reactivate.last_payment_date = s.last_payment_date ∧
        s.reactivate.next_payment_date = s.next_payment_date ∧
        s.reactivate.notes = s.notes ∧
        s.reactivate.numLicenses = s.numLicenses ∧
        s.reactivate.pricePerLicense = s.pricePerLicense ∧
        s.reactivate.pricing_tier = s.pricing_tier) ∧
    (∀ (s : Subscription) (now cancelTime endDate : Int) (cancelledBy : Option Nat),
        s.current_period_end = some endDate → endDate < now →
        ((s.cancel cancelTime cancelledBy).reactivate).hasAccess now = false) := by
  constructor
  · intro s
    exact ⟨rfl, rfl, rfl, rfl, rfl, rfl, rfl, rfl, rfl, rfl, rfl, rfl, rfl, rfl,
      rfl, rfl, rfl, rfl⟩
  · intro s now cancelTime endDate cancelledBy hce hlt
    simp [Subscription.cancel, Subscription.reactivate, Subscription.hasAccess,
      activeStatuses, hce]
    omega

/-- Witness for C6 on a concrete cancelled-then-reactivated subscription. -/
theorem C6_reactivate_spec_witness :
    (({ id := 1, user_id := 1, plan_name := none, status := "active",
        current_period_start := 0, current_period_end := some 1000,
        is_trial := true, billing_amount := 559, billing_currency := "DKK",
        billing_interval := "monthly", cancelled_at := none, cancelled_by := none,
        last_payment_date := none, next_payment_date := none, notes := "",
        numLicenses := 2, pricePerLicense := 559,
        pricing_tier := "1+" } : Subscription).cancel 2000 (some 1)).reactivate.hasAccess
      3000 = false :=
  C6_reactivate_spec.2 _ 3000 2000 1000 (some 1) rfl (by decide)

/-- C10: every schema-valid status is in {active, inactive, expired,
cancelled}, so `trialing` never occurs and on schema-valid subscriptions
`hasAccess` is equivalent to `status = "active"` plus the period check. -/
theorem C10_status_enum_spec (s : Subscription) (now : Int)
    (hvalid : s.status ∈ subscriptionStatusEnum) :
    s.status ≠ "trialing" ∧
    (s.hasAccess now = true ↔
      (s.status = "active" ∧
        (s.current_period_end = none ∨
          ∃ endDate, s.current_period_end = some endDate ∧ now ≤ endDate))) := by
  have hne : s.status ≠ "trialing" := by
    simp only [subscriptionStatusEnum, List.mem_cons, List.not_mem_nil, or_false] at hvalid
    rcases hvalid with h | h | h | h <;> simp [h]
  refine ⟨hne, ?_⟩
  rw [hasAccess_iff]
  constructor
  · rintro ⟨hst | hst, hend⟩
    · exact ⟨hst, hend⟩
    · exact absurd hst hne
  · rintro ⟨hst, hend⟩
    exact ⟨Or.inl hst, hend⟩

/-- Witness for C10 on a concrete schema-valid subscription. -/
theorem C10_status_enum_spec_witness :
    ("cancelled" : String) ≠ "trialing" :=
  (C10_status_enum_spec
    { id := 1, user_id := 1, plan_name := none, status := "cancelled",
      current_period_start := 0, current_period_end := none,
      is_trial := false, billing_amount := 559, billing_currency := "DKK",
      billing_interval := "monthly", cancelled_at := some 5, cancelled_by := some 1,
      last_payment_date := none, next_payment_date := none, notes := "",
      numLicenses := 2, pricePerLicense := 559, pricing_tier := "1+" }
    0 (by decide)).1

/-- A User document (the fields of `userSchema` in `src/models/User.js` that
the handlers under verification read or write). -/
structure User where
  id : Nat
  email : String
  password : String
  name : String
  phone : Option String
  specialty : Option String
  workplace : Option String
  journalSystem : Option String
  role : String
  is_company_admin : Bool
  can_invite : Bool
  is_active : Bool
  invitation_token : Option String
  invited_by : Option Nat
  subscription_id : Option Nat
  email_verified : Bool
  verification_token : Option String
deriving Repr, DecidableEq

/-- The document store: the User and Subscription collections. -/
structure DB where
  users : List User
  subscriptions : List Subscription
deriving Repr, DecidableEq

/-- `User.findById`. -/
def findUserById (db : DB) (userId : Nat) : Option User :=
  db.users.find? (fun u => u.id == userId)

/-- `User.findOne({email})`. -/
def findUserByEmail (db : DB) (email : String) : Option User :=
  db.users.find? (fun u => u.email == email)

/-- `Subscription.findById`. -/
def findSubscriptionById (db : DB) (subId : Nat) : Option Subscription :=
  db.subscriptions.find? (fun s => s.id == subId)

/-- `subscription.save()` on an existing document. -/
def saveSubscription (db : DB) (s : Subscription) : DB :=
  { db with subscriptions := db.subscriptions.map (fun t => if t.id == s.id then s else t) }

/-- `user.save()` on an existing document. -/
def saveUser (db : DB) (u : User) : DB :=
  { db with users := db.users.map (fun t => if t.id == u.id then u else t) }

/-- `new User(...); user.save()` for a fresh document. -/
def insertUser (db : DB) (u : User) : DB :=
  { db with users := db.users ++ [u] }

/-- `new Subscription(...); subscription.save()` for a fresh document. -/
def insertSubscription (db : DB) (s : Subscription) : DB :=
  { db with subscriptions := db.subscriptions ++ [s] }

/-- `User.findByIdAndDelete`. -/
def deleteUserById (db : DB) (userId : Nat) : DB :=
  { db with users := db.users.filter (fun u => !(u.id == userId)) }

/-- `User.countDocuments({$or: [{invited_by: ownerId}, {_id: ownerId}]})`. -/
def countTenantUsers (db : DB) (ownerId : Nat) : Nat :=
  (db.users.filter (fun u => u.invited_by == some ownerId || u.id == ownerId)).length

/-- The before/after breakdown (`upgradeInfo`) returned by `inviteUser` when
the subscription was auto-upgraded. -/
structure UpgradeInfo where
  previousLicenses : Int
  newLicenses : Int
  actualUsers : Nat
  previousTier : String
  newTier : String
  previousPrice : Int
  newPrice : Int
  priceDifference : Int
deriving Repr, DecidableEq

/-- Outcome of `inviteUser`: an `errorResponse(res, message, status)` or a
success response carrying `subscriptionUpgraded` and the optional
`upgradeInfo`. -/
inductive InviteResult where
  | error (status : Nat) (message : String)
  | success (subscriptionUpgraded : Bool) (upgradeInfo : Option UpgradeInfo)
deriving Repr, DecidableEq

/-- The tail of `inviteUser` from user creation on: build the invited User
(inactive, unverified, with the invitation token and `invited_by` link,
inheriting the workplace of the inviter), save it, then dispatch the e-mail; on
dispatch failure delete the just-created user and fail. -/
def createInvitedUser (db : DB) (currentUser : User) (invitedBy : Nat)
    (email name specialty phone invitationToken tempPassword : String)
    (newUserId : Nat) (emailOk : Bool)
    (subscriptionUpgraded : Bool) (upgradeInfo : Option UpgradeInfo) :
    InviteResult × DB :=
  let newUser : User := {
    id := newUserId,
    email := email,
    password := tempPassword,
    name := name,
    phone := some phone,
    specialty := some specialty,
    workplace := currentUser.workplace,
    journalSystem := none,
    role := "user",
    is_company_admin := false,
    can_invite := false,
    is_active := false,
    invitation_token := some invitationToken,
    invited_by := some invitedBy,
    subscription_id := none,
    email_verified := false,
    verification_token := none }
  let db2 := insertUser db newUser
  if emailOk then
    (.success subscriptionUpgraded upgradeInfo, db2)
  else
    (.error 500 "Kunne ikke sende invitations e-mail", deleteUserById db2 newUserId)

/-- `inviteUser` from `src/controllers/clinicController.js` (validation
middleware already passed).  `invitationToken`, `tempPassword` and
`newUserId` stand for the randomly generated values and `emailOk` for
whether the invitation e-mail dispatch succeeds. -/
def inviteUser (db : DB) (invitedBy : Nat) (email name specialty phone : String)
    (invitationToken tempPassword : String) (newUserId : Nat) (emailOk : Bool) :
    InviteResult × DB :=
  match findUserById db invitedBy with
  | none => (.error 404 "Bruger ikke fundet", db)
  | some currentUser =>
    if !currentUser.is_company_admin && !currentUser.can_invite then
      (.error 403 "Du har ikke tilladelse til at invitere brugere", db)
    else
      match currentUser.subscription_id.bind (findSubscriptionById db) with
      | none => (.error 404 "Intet abonnement fundet", db)
      | some subscription =>
        if (findUserByEmail db email).isSome then
          (.error 400 "Bruger findes allerede", db)
        else
          let userCount := countTenantUsers db currentUser.id
          let newTotal := userCount + 1
          if (newTotal : Int) > subscription.numLicenses then
            match calculatePrice (newTotal : Int) subscription.billing_interval with
            | .thrown =>
              (.error 500 "Kunne ikke invitere bruger", db)
            | .ret none =>
              (.error 500 "Kunne ikke beregne priser for det ønskede antal licenser", db)
            | .ret (some newPricing) =>
              let tierLabel := getTierLabel newPricing.tier.minLicenses
              let maxLicensesForTier :=
                getMaxLicensesForTier newPricing.tier.minLicenses (newTotal : Int)
              let upgradedSub := { subscription with
                numLicenses := maxLicensesForTier,
                pricePerLicense := newPricing.pricePerLicense,
                pricing_tier := tierLabel,
                billing_amount := newPricing.totalPrice }
              let db1 := saveSubscription db upgradedSub
              let upgradeInfo : UpgradeInfo := {
                previousLicenses := subscription.numLicenses,
                newLicenses := maxLicensesForTier,
                actualUsers := newTotal,
                previousTier := subscription.pricing_tier,
                newTier := tierLabel,
                previousPrice := subscription.billing_amount,
                newPrice := newPricing.totalPrice,
                priceDifference := newPricing.totalPrice - subscription.billing_amount }
              createInvitedUser db1 currentUser invitedBy email name specialty phone
                invitationToken tempPassword newUserId emailOk true (some upgradeInfo)
          else
            createInvitedUser db currentUser invitedBy email name specialty phone
              invitationToken tempPassword newUserId emailOk false none

/-- Outcome of the subscription gate: call `next()` with `req.subscription`
and `req.subscriptionOwnerId` set, or an `errorResponse` with an HTTP
status. -/
inductive GateResult where
  | proceed (subscription : Subscription) (subscriptionOwnerId : Nat)
  | error (status : Nat) (message : String)
deriving Repr, DecidableEq

/-- The billing-owner resolution inside `requireActiveSubscription`:
company admins use their own subscription, invited users that of their inviter,
anyone else falls back to their own. -/
def billingOwnerId (caller : User) : Nat :=
  if caller.is_company_admin then caller.id
  else
    match caller.invited_by with
    | some inviter => inviter
    | none => caller.id

/-- `requireActiveSubscription` from `src/middleware/auth.js`: find the
subscription of the billing owner with status trialing or active and require
`hasAccess()`. -/
def requireActiveSubscription (db : DB) (caller : User) (now : Int) : GateResult :=
  let subscriptionOwnerId := billingOwnerId caller
  match db.subscriptions.find? (fun s =>
      s.user_id == subscriptionOwnerId &&
        (s.status == "trialing" || s.status == "active")) with
  | none => .error 402 "Aktivt abonnement påkrævet"
  | some subscription =>
    if subscription.hasAccess now then .proceed subscription subscriptionOwnerId
    else .error 402 "Aktivt abonnement påkrævet"

/-- Request body of `updateProfile` (absent field = not sent). -/
structure UpdateProfileBody where
  name : Option String
  specialty : Option String
  phone : Option String
  workplace : Option String
  journalSystem : Option String
deriving Repr, DecidableEq

/-- Outcome of `updateProfile` / `register`. -/
inductive ProfileResult where
  | error (status : Nat) (message : String)
  | success
deriving Repr, DecidableEq

/-- The field-update sequence of `updateProfile`: `if (name) ...` and
`if (specialty) ...` follow JS truthiness (empty string does not update),
`phone`/`workplace`/`journalSystem` update whenever present. -/
def applyProfileUpdates (user : User) (body : UpdateProfileBody) : User :=
  let user1 :=
    match body.name with
    | some n => if n = "" then user else { user with name := n }
    | none => user
  let user2 :=
    match body.specialty with
    | some sp => if sp = "" then user1 else { user1 with specialty := some sp }
    | none => user1
  let user3 :=
    match body.phone with
    | some p => { user2 with phone := some p }
    | none => user2
  let user4 :=
    match body.workplace with
    | some w => { user3 with workplace := some w }
    | none => user3
  match body.journalSystem with
  | some j => { user4 with journalSystem := some j }
  | none => user4

/-- `updateProfile` from `src/controllers/authController.js`: update the
profile fields of the caller and, when a company admin changed their workplace,
fan the new workplace out to every user they invited. -/
def updateProfile (db : DB) (callerId : Nat) (body : UpdateProfileBody) :
    ProfileResult × DB :=
  match findUserById db callerId with
  | none => (.error 404 "Bruger ikke fundet", db)
  | some user =>
    let workplaceChanged := body.workplace.isSome && body.workplace != user.workplace
    let updatedUser := applyProfileUpdates user body
    let db1 := saveUser db updatedUser
    let db2 :=
      if workplaceChanged && updatedUser.is_company_admin then
        { db1 with users := db1.users.map (fun u =>
            if u.invited_by == some updatedUser.id then
              { u with workplace := updatedUser.workplace }
            else u) }
      else db1
    (.success, db2)

/-- JS `value || defaultValue` on an optional string (empty string is falsy). -/
def orDefault (v : Option String) (d : String) : String :=
  match v with
  | some s => if s = "" then d else s
  | none => d

/-- Request body of `register`. -/
structure RegisterBody where
  email : String
  password : String
  name : String
  specialty : Option String
  phone : Option String
  workplace : Option String
  journalSystem : Option String
  role : Option String
  numLicenses : Option Int
  trialEndDate : Option Int
  billing_interval : Option String
deriving Repr, DecidableEq

/-- `const licenseCount = numLicenses || 1` (0 and undefined are falsy). -/
def registerLicenseCount (body : RegisterBody) : Int :=
  match body.numLicenses with
  | some v => if v = 0 then 1 else v
  | none => 1

/-- `const billingInterval = billing_interval || "monthly"` (JS source uses single quotes). -/
def registerBillingInterval (body : RegisterBody) : String :=
  orDefault body.billing_interval "monthly"

/-- `register` from `src/controllers/authController.js` (validation
middleware already passed).  The new User is saved before the pricing is
computed; a failed welcome e-mail does not affect the outcome and is not
modelled. -/
def register (db : DB) (body : RegisterBody) (newUserId newSubId : Nat)
    (verificationToken : String) (now : Int) : ProfileResult × DB :=
  if (findUserByEmail db body.email).isSome then
    (.error 400 "Bruger med denne e-mail findes allerede", db)
  else
    let licenseCount := registerLicenseCount body
    let user : User := {
      id := newUserId,
      email := body.email,
      password := body.password,
      name := body.name,
      phone := body.phone,
      specialty := some (orDefault body.specialty "general"),
      workplace := body.workplace,
      journalSystem := some (orDefault body.journalSystem "none"),
      role := orDefault body.role "user",
      is_company_admin := true,
      can_invite := false,
      is_active := true,
      invitation_token := none,
      invited_by := none,
      subscription_id := none,
      email_verified := false,
      verification_token := some verificationToken }
    let db1 := insertUser db user
    let trialEnd : Int := body.trialEndDate.getD (now + 10 * 24 * 60 * 60 * 1000)
    let billingInterval := registerBillingInterval body
    match calculatePrice licenseCount billingInterval with
    | .thrown => (.error 500 "TypeError", db1)
    | .ret none => (.error 400 "Ugyldigt antal licenser eller faktureringsinterval", db1)
    | .ret (some pricing) =>
      let tierLabel := getTierLabel pricing.tier.minLicenses
      let maxLicensesForTier := getMaxLicensesForTier pricing.tier.minLicenses licenseCount
      let subscription : Subscription := {
        id := newSubId,
        user_id := newUserId,
        plan_name := none,
        status := "active",
        current_period_start := now,
        current_period_end := some trialEnd,
        is_trial := true,
        billing_amount := pricing.totalPrice,
        billing_currency := "DKK",
        billing_interval := billingInterval,
        cancelled_at := none,
        cancelled_by := none,
        last_payment_date := none,
        next_payment_date := none,
        notes := "",
        numLicenses := maxLicensesForTier,
        pricePerLicense := pricing.pricePerLicense,
        pricing_tier := tierLabel }
      let db2 := insertSubscription db1 subscription
      let db3 := saveUser db2 { user with subscription_id := some newSubId }
      (.success, db3)

/-- Replacing the subscription with a given id updates what a `find?` by that
id returns. -/
theorem find?_replace_by_id (l : List Subscription) (subId : Nat)
    (sub snew : Subscription)
    (hfind : l.find? (fun s => s.id == subId) = some sub)
    (hid : snew.id = sub.id) :
    (l.map (fun t => if t.id == snew.id then snew else t)).find?
      (fun s => s.id == subId) = some snew := by
  have hsubid : sub.id = subId := by
    have h := List.find?_some hfind
    simpa using h
  induction l with
  | nil => simp at hfind
  | cons a l ih =>
    by_cases ha : a.id = subId
    · have hpa : (fun s : Subscription => s.id == subId) a = true := by simpa using ha
      rw [@List.find?_cons_of_pos _ (fun s : Subscription => s.id == subId) a l hpa] at hfind
      injection hfind with hfind
      subst hfind
      have hc : (a.id == snew.id) = true := by simp [hid]
      have hp : (fun s : Subscription => s.id == subId) snew = true := by
        simp [hid, hsubid]
      simp only [List.map_cons, hc, if_true]
      exact @List.find?_cons_of_pos _ (fun s : Subscription => s.id == subId) snew _ hp
    · have hpa : ¬((fun s : Subscription => s.id == subId) a = true) := by simpa using ha
      rw [@List.find?_cons_of_neg _ (fun s : Subscription => s.id == subId) a l hpa] at hfind
      have hc : (a.id == snew.id) = false := by
        simp only [hid, hsubid]
        simpa using ha
      simp only [List.map_cons, hc]
      rw [if_neg (by simp)]
      rw [@List.find?_cons_of_neg _ (fun s : Subscription => s.id == subId) a _ hpa]
      exact ih hfind

/-- `saveSubscription` updates the saved subscription in the store. -/
theorem findSubscriptionById_save (db : DB) (subId : Nat) (sub snew : Subscription)
    (hfind : findSubscriptionById db subId = some sub) (hid : snew.id = sub.id) :
    findSubscriptionById (saveSubscription db snew) subId = some snew :=
  find?_replace_by_id db.subscriptions subId sub snew hfind hid

/-- Rolling back the freshly inserted user restores an empty e-mail lookup. -/
theorem findUserByEmail_rollback (db : DB) (u : User) (email : String)
    (hnone : findUserByEmail db email = none) :
    findUserByEmail (deleteUserById (insertUser db u) u.id) email = none := by
  unfold findUserByEmail deleteUserById insertUser at *
  rw [List.find?_eq_none] at hnone ⊢
  intro x hx
  simp only [List.mem_filter, List.mem_append, List.mem_singleton] at hx
  rcases hx with ⟨hx | rfl, hid⟩
  · exact hnone x hx
  · simp at hid

/-- Appending an element satisfying the predicate to a list where nothing
satisfies it makes `find?` return exactly that element. -/
theorem find?_append_singleton {α : Type} (p : α → Bool) (l : List α) (u : α)
    (hnone : l.find? p = none) (hu : p u = true) :
    (l ++ [u]).find? p = some u := by
  induction l with
  | nil =>
    simp only [List.nil_append]
    exact @List.find?_cons_of_pos _ p u [] hu
  | cons a l ih =>
    rw [List.find?_eq_none] at hnone
    have hpa : ¬(p a = true) := hnone a (by simp)
    have hrest : l.find? p = none := List.find?_eq_none.mpr (fun x hx => hnone x (by simp [hx]))
    rw [List.cons_append]
    rw [@List.find?_cons_of_neg _ p a (l ++ [u]) hpa]
    exact ih hrest

/-- Inserting a user with the sought e-mail into a store without it makes the
lookup find exactly that user. -/
theorem findUserByEmail_insert (db : DB) (u : User) (email : String)
    (hnone : findUserByEmail db email = none) (hu : u.email = email) :
    findUserByEmail (insertUser db u) email = some u :=
  find?_append_singleton _ db.users u hnone (by simp [hu])

/-- C1: when the new member count exceeds the capacity of the subscription,
`inviteUser` recomputes the pricing, persists the new `numLicenses`,
`pricePerLicense`, `pricing_tier` and `billing_amount` on the Subscription
regardless of how the rest of the call turns out, and on success reports
`subscriptionUpgraded = true` together with the before/after breakdown. -/
theorem C1_inviteUser_autoUpgrade
    (db : DB) (invitedBy : Nat) (currentUser : User) (subId : Nat)
    (subscription : Subscription) (newTotal : Nat)
    (email name specialty phone invitationToken tempPassword : String)
    (newUserId : Nat) (emailOk : Bool) (newPricing : PriceResult)
    (hOwner : findUserById db invitedBy = some currentUser)
    (hAdmin : currentUser.is_company_admin = true)
    (hSubId : currentUser.subscription_id = some subId)
    (hSub : findSubscriptionById db subId = some subscription)
    (hNoDup : findUserByEmail db email = none)
    (hNewTotal : newTotal = countTenantUsers db currentUser.id + 1)
    (hNeed : (newTotal : Int) > subscription.numLicenses)
    (hPricing : calculatePrice (newTotal : Int) subscription.billing_interval =
      .ret (some newPricing)) :
    findSubscriptionById
        (inviteUser db invitedBy email name specialty phone invitationToken
          tempPassword newUserId emailOk).2 subId =
      some { subscription with
        numLicenses := getMaxLicensesForTier newPricing.tier.minLicenses (newTotal : Int),
        pricePerLicense := newPricing.pricePerLicense,
        pricing_tier := getTierLabel newPricing.tier.minLicenses,
        billing_amount := newPricing.totalPrice } ∧
    (emailOk = true →
      (inviteUser db invitedBy email name specialty phone invitationToken
          tempPassword newUserId emailOk).1 =
        .success true (some {
          previousLicenses := subscription.numLicenses,
          newLicenses := getMaxLicensesForTier newPricing.tier.minLicenses (newTotal : Int),
          actualUsers := newTotal,
          previousTier := subscription.pricing_tier,
          newTier := getTierLabel newPricing.tier.minLicenses,
          previousPrice := subscription.billing_amount,
          newPrice := newPricing.totalPrice,
          priceDifference := newPricing.totalPrice - subscription.billing_amount })) := by
  subst hNewTotal
  have hbind : currentUser.subscription_id.bind (findSubscriptionById db) =
      some subscription := by
    rw [hSubId]
    simpa using hSub
  simp only [inviteUser, hOwner, hAdmin, hbind, hNoDup, Bool.not_true,
    Bool.false_and, Bool.false_eq_true, if_false, Option.isSome_none, hNeed, if_true,
    hPricing, if_pos hNeed]
  constructor
  · cases emailOk <;>
      · simp only [createInvitedUser, if_true, if_false, Bool.false_eq_true]
        exact findSubscriptionById_save db subId subscription _ hSub rfl
  · intro hok
    subst hok
    simp only [createInvitedUser, if_true]

/-- Concrete tenant for the witnesses: an owner on the monthly "1+" tier with
capacity 2 and one already-invited member. -/
def ownerW : User := {
  id := 1, email := "ejer@klinik.dk", password := "pw", name := "Ejer",
  phone := some "123", specialty := some "general", workplace := some "Klinik A",
  journalSystem := none, role := "user", is_company_admin := true,
  can_invite := false, is_active := true, invitation_token := none,
  invited_by := none, subscription_id := some 10, email_verified := true,
  verification_token := none }

/-- The member already invited by `ownerW`. -/
def memberW : User := { ownerW with
  id := 2, email := "medlem@klinik.dk", is_company_admin := false,
  invited_by := some 1, subscription_id := none }

/-- The subscription of `ownerW`: monthly "1+" tier, capacity 2. -/
def subW : Subscription := {
  id := 10, user_id := 1, plan_name := none, status := "active",
  current_period_start := 0, current_period_end := some 1000000,
  is_trial := true, billing_amount := 559, billing_currency := "DKK",
  billing_interval := "monthly", cancelled_at := none, cancelled_by := none,
  last_payment_date := none, next_payment_date := none, notes := "",
  numLicenses := 2, pricePerLicense := 559, pricing_tier := "1+" }

/-- Concrete store for the witnesses. -/
def dbW : DB := ⟨[ownerW, memberW], [subW]⟩

/-- Witness for C1: inviting a second member under the monthly "1+" tier
(new total 3) upgrades to tier "3+" with per-license 528, billing 1584 and
capacity 4. -/
theorem C1_inviteUser_autoUpgrade_witness :
    findSubscriptionById
        (inviteUser dbW 1 "ny@klinik.dk" "Ny Bruger" "general" "555" "tok" "pwd"
          3 true).2 10 =
      some { subW with
        numLicenses := 4
        pricePerLicense := 528
        pricing_tier := "3+"
        billing_amount := 1584 } ∧
    (inviteUser dbW 1 "ny@klinik.dk" "Ny Bruger" "general" "555" "tok" "pwd"
        3 true).1 =
      .success true (some {
        previousLicenses := 2
        newLicenses := 4
        actualUsers := 3
        previousTier := "1+"
        newTier := "3+"
        previousPrice := 559
        newPrice := 1584
        priceDifference := 1025 }) := by
  have h := C1_inviteUser_autoUpgrade dbW 1 ownerW 10 subW 3
      "ny@klinik.dk" "Ny Bruger" "general" "555" "tok" "pwd" 3 true
      ⟨⟨3, 528, "3+ licenser"⟩, 3, 528, 1584, "monthly"⟩
      (by rfl) (by rfl) (by rfl) (by rfl) (by rfl) (by rfl) (by decide) (by rfl)
  exact ⟨h.1, h.2 rfl⟩

/-- C2: if the invitation e-mail dispatch fails after the invited user was
created, the user is deleted again (the e-mail lookup afterwards finds
nothing) and the call fails with the e-mail error, while the auto-upgrade
persisted on the Subscription earlier in the same call is not rolled back. -/
theorem C2_inviteUser_emailFailure
    (db : DB) (invitedBy : Nat) (currentUser : User) (subId : Nat)
    (subscription : Subscription) (newTotal : Nat)
    (email name specialty phone invitationToken tempPassword : String)
    (newUserId : Nat) (newPricing : PriceResult)
    (hOwner : findUserById db invitedBy = some currentUser)
    (hAdmin : currentUser.is_company_admin = true)
    (hSubId : currentUser.subscription_id = some subId)
    (hSub : findSubscriptionById db subId = some subscription)
    (hNoDup : findUserByEmail db email = none)
    (hNewTotal : newTotal = countTenantUsers db currentUser.id + 1)
    (hNeed : (newTotal : Int) > subscription.numLicenses)
    (hPricing : calculatePrice (newTotal : Int) subscription.billing_interval =
      .ret (some newPricing)) :
    (inviteUser db invitedBy email name specialty phone invitationToken
        tempPassword newUserId false).1 =
      .error 500 "Kunne ikke sende invitations e-mail" ∧
    findUserByEmail
        (inviteUser db invitedBy email name specialty phone invitationToken
          tempPassword newUserId false).2 email = none ∧
    findSubscriptionById
        (inviteUser db invitedBy email name specialty phone invitationToken
          tempPassword newUserId false).2 subId =
      some { subscription with
        numLicenses := getMaxLicensesForTier newPricing.tier.minLicenses (newTotal : Int),
        pricePerLicense := newPricing.pricePerLicense,
        pricing_tier := getTierLabel newPricing.tier.minLicenses,
        billing_amount := newPricing.totalPrice } := by
  subst hNewTotal
  have hbind : currentUser.subscription_id.bind (findSubscriptionById db) =
      some subscription := by
    rw [hSubId]
    simpa using hSub
  simp only [inviteUser, hOwner, hAdmin, hbind, hNoDup, Bool.not_true,
    Bool.false_and, Bool.false_eq_true, if_false, Option.isSome_none, hNeed, if_true,
    hPricing, if_pos hNeed]
  refine ⟨?_, ?_, ?_⟩
  · simp only [createInvitedUser, Bool.false_eq_true, if_false]
  · simp only [createInvitedUser, Bool.false_eq_true, if_false]
    exact findUserByEmail_rollback _ _ email hNoDup
  · simp only [createInvitedUser, Bool.false_eq_true, if_false]
    exact findSubscriptionById_save db subId subscription _ hSub rfl

/-- Witness for C2 on the concrete tenant: a failed e-mail dispatch while
inviting a second member. -/
theorem C2_inviteUser_emailFailure_witness :
    (inviteUser dbW 1 "ny@klinik.dk" "Ny Bruger" "general" "555" "tok" "pwd"
        3 false).1 =
      .error 500 "Kunne ikke sende invitations e-mail" ∧
    findUserByEmail
        (inviteUser dbW 1 "ny@klinik.dk" "Ny Bruger" "general" "555" "tok" "pwd"
          3 false).2 "ny@klinik.dk" = none ∧
    findSubscriptionById
        (inviteUser dbW 1 "ny@klinik.dk" "Ny Bruger" "general" "555" "tok" "pwd"
          3 false).2 10 =
      some { subW with
        numLicenses := 4
        pricePerLicense := 528
        pricing_tier := "3+"
        billing_amount := 1584 } := by
  have h := C2_inviteUser_emailFailure dbW 1 ownerW 10 subW 3
      "ny@klinik.dk" "Ny Bruger" "general" "555" "tok" "pwd" 3
      ⟨⟨3, 528, "3+ licenser"⟩, 3, 528, 1584, "monthly"⟩
      (by rfl) (by rfl) (by rfl) (by rfl) (by rfl) (by rfl) (by decide) (by rfl)
  exact ⟨h.1, h.2.1, h.2.2⟩

/-- A subscription passing `hasAccess` also passes the status filter of the
status filter of the `findOne` query of the gate. -/
theorem hasAccess_status_filter (s : Subscription) (now : Int)
    (h : s.hasAccess now = true) :
    (s.status == "trialing" || s.status == "active") = true := by
  rcases ((hasAccess_iff s now).mp h).1 with hst | hst <;> simp [hst]

/-- C7: the subscription gate resolves the billing owner (the caller for
company admins and callers without an inviter, the inviter otherwise),
proceeds exactly when that owner has a subscription passing `hasAccess`, and
otherwise fails with the distinguished HTTP 402 payment-required error,
never a 403. -/
theorem C7_requireActiveSubscription_spec
    (db : DB) (caller : User) (now : Int)
    (huniq : ∀ s1 ∈ db.subscriptions, ∀ s2 ∈ db.subscriptions,
        s1.user_id = s2.user_id → s1 = s2) :
    billingOwnerId caller =
      (if caller.is_company_admin then caller.id
       else
         match caller.invited_by with
         | some inviter => inviter
         | none => caller.id) ∧
    ((∃ s, requireActiveSubscription db caller now =
        .proceed s (billingOwnerId caller)) ↔
      (∃ s, s ∈ db.subscriptions ∧ s.user_id = billingOwnerId caller ∧
        s.hasAccess now = true)) ∧
    (requireActiveSubscription db caller now =
        .error 402 "Aktivt abonnement påkrævet" ∨
      ∃ s, requireActiveSubscription db caller now =
        .proceed s (billingOwnerId caller)) := by
  refine ⟨rfl, ?_, ?_⟩
  · constructor
    · rintro ⟨s, hs⟩
      simp only [requireActiveSubscription] at hs
      cases hfind : db.subscriptions.find? (fun t =>
          t.user_id == billingOwnerId caller &&
            (t.status == "trialing" || t.status == "active")) with
      | none =>
        simp [hfind] at hs
      | some t =>
        simp only [hfind] at hs
        by_cases hacc : t.hasAccess now = true
        · rw [if_pos hacc] at hs
          injection hs with ht _
          subst ht
          have hpred := List.find?_some hfind
          simp only [Bool.and_eq_true, beq_iff_eq] at hpred
          exact ⟨t, List.mem_of_find?_eq_some hfind, hpred.1, hacc⟩
        · rw [if_neg hacc] at hs
          simp at hs
    · rintro ⟨s, hsmem, hsid, hacc⟩
      have hpred : (fun t : Subscription =>
          t.user_id == billingOwnerId caller &&
            (t.status == "trialing" || t.status == "active")) s = true := by
        simp only [Bool.and_eq_true, beq_iff_eq]
        exact ⟨hsid, hasAccess_status_filter s now hacc⟩
      cases hfind : db.subscriptions.find? (fun t =>
          t.user_id == billingOwnerId caller &&
            (t.status == "trialing" || t.status == "active")) with
      | none =>
        rw [List.find?_eq_none] at hfind
        exact absurd hpred (hfind s hsmem)
      | some t =>
        have htmem := List.mem_of_find?_eq_some hfind
        have htpred := List.find?_some hfind
        simp only [Bool.and_eq_true, beq_iff_eq] at htpred
        have hts : t = s := huniq t htmem s hsmem (by rw [htpred.1, hsid])
        subst hts
        refine ⟨t, ?_⟩
        simp [requireActiveSubscription, hfind, hacc]
  · cases hfind : db.subscriptions.find? (fun t =>
        t.user_id == billingOwnerId caller &&
          (t.status == "trialing" || t.status == "active")) with
    | none =>
      left
      simp [requireActiveSubscription, hfind]
    | some t =>
      by_cases hacc : t.hasAccess now = true
      · right
        exact ⟨t, by simp [requireActiveSubscription, hfind, hacc]⟩
      · left
        simp [requireActiveSubscription, hfind, hacc]

/-- Witness for C7: the invited member passes the gate through the owner
subscription. -/
theorem C7_requireActiveSubscription_spec_witness :
    (∃ s, requireActiveSubscription dbW memberW 0 =
      .proceed s (billingOwnerId memberW)) ∧
    (requireActiveSubscription dbW memberW 0 =
        .error 402 "Aktivt abonnement påkrævet" ∨
      ∃ s, requireActiveSubscription dbW memberW 0 =
        .proceed s (billingOwnerId memberW)) := by
  have h := C7_requireActiveSubscription_spec dbW memberW 0 (by decide)
  exact ⟨h.2.1.mpr ⟨subW, by decide, by decide, by decide⟩, h.2.2⟩

/-- The profile-update sequence never changes `id`, `is_company_admin` or
`invited_by`, and sets `workplace` to the request value whenever one was
sent. -/
theorem applyProfileUpdates_fields (user : User) (body : UpdateProfileBody) :
    (applyProfileUpdates user body).id = user.id ∧
    (applyProfileUpdates user body).is_company_admin = user.is_company_admin ∧
    (applyProfileUpdates user body).invited_by = user.invited_by ∧
    (applyProfileUpdates user body).workplace =
      (match body.workplace with
       | some w => some w
       | none => user.workplace) := by
  rcases body with ⟨bn, bs, bp, bw, bj⟩
  unfold applyProfileUpdates
  cases bn <;> cases bs <;> cases bp <;> cases bw <;> cases bj <;>
    (refine ⟨?_, ?_, ?_, ?_⟩ <;> dsimp only <;> split_ifs <;> rfl)

/-- C9: after a company-admin owner changes their workplace through
`updateProfile`, every user they invited carries the new workplace; and
`inviteUser` creates the new member with the workplace of the inviting owner. -/
theorem C9_workplace_sync
    (db : DB) (callerId : Nat) (owner : User) (body : UpdateProfileBody) (w : String)
    (hOwner : findUserById db callerId = some owner)
    (hAdmin : owner.is_company_admin = true)
    (hW : body.workplace = some w)
    (hChanged : owner.workplace ≠ some w) :
    (∀ u ∈ (updateProfile db callerId body).2.users,
        u.invited_by = some owner.id → u.workplace = some w) ∧
    (∀ (db2 : DB) (invitedBy : Nat) (inviter : User)
        (email name specialty phone invitationToken tempPassword : String)
        (newUserId : Nat) (upgraded : Bool) (info : Option UpgradeInfo) (dbOut : DB),
        findUserById db2 invitedBy = some inviter →
        inviteUser db2 invitedBy email name specialty phone invitationToken
            tempPassword newUserId true = (.success upgraded info, dbOut) →
        ∃ newUser, dbOut.users = db2.users ++ [newUser] ∧
          newUser.workplace = inviter.workplace ∧
          newUser.invited_by = some invitedBy ∧
          newUser.email = email) := by
  constructor
  · intro u hu hinv
    have hfields := applyProfileUpdates_fields owner body
    have hwp : (applyProfileUpdates owner body).workplace = some w := by
      rw [hfields.2.2.2, hW]
    have hwc : (body.workplace.isSome && body.workplace != owner.workplace) = true := by
      rw [hW]
      simp only [Option.isSome_some, Bool.true_and, bne_iff_ne]
      exact fun hcontra => hChanged hcontra.symm
    have hca : (applyProfileUpdates owner body).is_company_admin = true := by
      rw [hfields.2.1, hAdmin]
    simp only [updateProfile, hOwner, hwc, hca, Bool.and_self, if_true] at hu
    rw [List.mem_map] at hu
    obtain ⟨y, -, hyu⟩ := hu
    by_cases hy : (y.invited_by == some (applyProfileUpdates owner body).id) = true
    · rw [if_pos hy] at hyu
      rw [← hyu]
      exact hwp
    · rw [if_neg hy] at hyu
      rw [← hyu] at hinv
      rw [hfields.1] at hy
      exact absurd (by simp [hinv]) hy
  · intro db2 invitedBy inviter email name specialty phone invitationToken tempPassword
      newUserId upgraded info dbOut hInv hRes
    simp only [inviteUser, hInv] at hRes
    by_cases hperm : (!inviter.is_company_admin && !inviter.can_invite) = true
    · rw [if_pos hperm] at hRes
      simp at hRes
    · rw [if_neg hperm] at hRes
      cases hb : inviter.subscription_id.bind (findSubscriptionById db2) with
      | none =>
        rw [hb] at hRes
        simp at hRes
      | some subscription =>
        rw [hb] at hRes
        dsimp only at hRes
        by_cases hdup : (findUserByEmail db2 email).isSome = true
        · rw [if_pos hdup] at hRes
          simp at hRes
        · rw [if_neg hdup] at hRes
          by_cases hneed : ((countTenantUsers db2 inviter.id + 1 : Nat) : Int) >
              subscription.numLicenses
          · rw [if_pos hneed] at hRes
            cases hp : calculatePrice ((countTenantUsers db2 inviter.id + 1 : Nat) : Int)
                subscription.billing_interval with
            | thrown =>
              rw [hp] at hRes
              simp at hRes
            | ret v =>
              cases v with
              | none =>
                rw [hp] at hRes
                simp at hRes
              | some newPricing =>
                rw [hp] at hRes
                dsimp only [createInvitedUser] at hRes
                rw [if_pos rfl] at hRes
                injection hRes with h1 h2
                subst h2
                exact ⟨_, rfl, rfl, rfl, rfl⟩
          · rw [if_neg hneed] at hRes
            dsimp only [createInvitedUser] at hRes
            rw [if_pos rfl] at hRes
            injection hRes with h1 h2
            subst h2
            exact ⟨_, rfl, rfl, rfl, rfl⟩

/-- Witness for C9: the owner renames the workplace; the member record in the
resulting store carries the new name. -/
theorem C9_workplace_sync_witness :
    ({ memberW with workplace := some "Klinik B" } : User).workplace =
      some "Klinik B" :=
  (C9_workplace_sync dbW 1 ownerW ⟨none, none, none, some "Klinik B", none⟩
    "Klinik B" (by rfl) (by rfl) (by rfl) (by decide)).1
    { memberW with workplace := some "Klinik B" } (by decide) (by decide)

/-- Register request that passes the validation middleware (which checks
neither `numLicenses` nor `billing_interval`) but fails the pricing
computation: `numLicenses = -1` is truthy and below every tier minimum. -/
def badRegisterBody : RegisterBody := {
  email := "ny@klinik.dk", password := "Passw0rd1", name := "Ny Bruger",
  specialty := none, phone := none, workplace := some "Klinik",
  journalSystem := none, role := none, numLicenses := some (-1),
  trialEndDate := none, billing_interval := some "monthly" }

/-- Counterexample to C8 as stated: a registration that fails the
license-count/billing-interval pricing validation reports its error only
after the new User was persisted — the lookup afterwards does find the new
user in the store. -/
theorem C8_counterexample :
    (register ⟨[], []⟩ badRegisterBody 1 2 "tok" 0).1 =
      .error 400 "Ugyldigt antal licenser eller faktureringsinterval" ∧
    findUserByEmail (register ⟨[], []⟩ badRegisterBody 1 2 "tok" 0).2
      "ny@klinik.dk" ≠ none := by
  refine ⟨by rfl, ?_⟩
  decide

/-- C8 (amended): the duplicate-e-mail conflicts in `register` and
`inviteUser` are returned with the store unchanged, before any write; but a
`register` call that fails the license-count/billing-interval pricing
validation returns its error only after the new User has been persisted, and
that User is not rolled back. -/
theorem C8_error_write_discipline :
    (∀ (db : DB) (body : RegisterBody) (newUserId newSubId : Nat)
        (verificationToken : String) (now : Int),
        (findUserByEmail db body.email).isSome = true →
        register db body newUserId newSubId verificationToken now =
          (.error 400 "Bruger med denne e-mail findes allerede", db)) ∧
    (∀ (db : DB) (invitedBy : Nat) (currentUser : User)
        (email name specialty phone invitationToken tempPassword : String)
        (newUserId : Nat) (emailOk : Bool) (subscription : Subscription) (subId : Nat),
        findUserById db invitedBy = some currentUser →
        currentUser.is_company_admin = true →
        currentUser.subscription_id = some subId →
        findSubscriptionById db subId = some subscription →
        (findUserByEmail db email).isSome = true →
        inviteUser db invitedBy email name specialty phone invitationToken
            tempPassword newUserId emailOk =
          (.error 400 "Bruger findes allerede", db)) ∧
    (∀ (db : DB) (body : RegisterBody) (newUserId newSubId : Nat)
        (verificationToken : String) (now : Int),
        findUserByEmail db body.email = none →
        calculatePrice (registerLicenseCount body) (registerBillingInterval body) =
          .ret none →
        (register db body newUserId newSubId verificationToken now).1 =
          .error 400 "Ugyldigt antal licenser eller faktureringsinterval" ∧
        ∃ u, (register db body newUserId newSubId verificationToken now).2.users =
            db.users ++ [u] ∧ u.email = body.email) := by
  refine ⟨?_, ?_, ?_⟩
  · intro db body newUserId newSubId verificationToken now hdup
    simp only [register, hdup, if_true]
  · intro db invitedBy currentUser email name specialty phone invitationToken
      tempPassword newUserId emailOk subscription subId hOwner hAdmin hSubId hSub hdup
    have hbind : currentUser.subscription_id.bind (findSubscriptionById db) =
        some subscription := by
      rw [hSubId]
      simpa using hSub
    simp only [inviteUser, hOwner, hAdmin, hbind, hdup, Bool.not_true,
      Bool.false_and, Bool.false_eq_true, if_false, if_true]
  · intro db body newUserId newSubId verificationToken now hnone hprice
    simp only [register, hnone, Option.isSome_none, Bool.false_eq_true, if_false,
      hprice]
    exact ⟨trivial, _, rfl, rfl⟩

/-- Witness for the amended C8 at concrete inputs. -/
theorem C8_error_write_discipline_witness :
    register dbW { badRegisterBody with email := "ejer@klinik.dk" } 7 8 "tok" 0 =
      (.error 400 "Bruger med denne e-mail findes allerede", dbW) ∧
    inviteUser dbW 1 "medlem@klinik.dk" "X" "general" "1" "t" "p" 9 true =
      (.error 400 "Bruger findes allerede", dbW) ∧
    ((register ⟨[], []⟩ badRegisterBody 1 2 "tok" 0).1 =
      .error 400 "Ugyldigt antal licenser eller faktureringsinterval" ∧
     ∃ u, (register ⟨[], []⟩ badRegisterBody 1 2 "tok" 0).2.users = [] ++ [u] ∧
        u.email = badRegisterBody.email) := by
  refine ⟨?_, ?_, ?_⟩
  · exact C8_error_write_discipline.1 dbW _ 7 8 "tok" 0 (by decide)
  · exact C8_error_write_discipline.2.1 dbW 1 ownerW "medlem@klinik.dk" "X" "general"
      "1" "t" "p" 9 true subW 10 (by rfl) (by rfl) (by rfl) (by rfl) (by decide)
  · exact C8_error_write_discipline.2.2 ⟨[], []⟩ badRegisterBody 1 2 "tok" 0
      (by rfl) (by rfl)

end CareNote
